import Mathlib

/-!
Verification development for the alphatub-shots single-page application
(`src/src/index.tsx`).  The application is a React component whose behaviour
is entirely determined by a collection of `useState` slots and event handlers
that transform them.  We embed that state as the structure `AppState` and each
handler as a pure state-transition function.  Network requests are modelled by
passing their settled outcomes (`Except String ApiResponse`) as explicit
parameters, since the handlers' behaviour is a pure function of those
outcomes.  Absent JavaScript object fields and `undefined` values are modelled
as `""` / `[]` / `none`, matching the code's pervasive `|| ''` defaulting and
truthiness tests.
-/

/-- Mirrors the `LanguageResult` interface (index.tsx lines 6-16): the per-tab
record holding the AI output, loading flag, error slot and the `existing_*`
fields previously persisted in the database.  Optional string fields that the
code defaults with `|| ''` are plain strings here. -/
structure LanguageResult where
  object_name : String
  object_description : String
  object_hint : String
  isLoading : Bool
  error : Option String
  existing_object_name : String
  existing_object_description : String
  existing_object_hint : String
deriving DecidableEq, Repr

/-- The fields of the identify-endpoint JSON response that the code actually
reads (index.tsx lines 351-500).  A field absent from the response is `""`
(resp. `[]`), which is equivalent under the code's `|| ''` defaulting and
truthiness checks. -/
structure ApiResponse where
  object_name_en : String
  object_name_translated : String
  object_description : String
  object_hint : String
  object_category : String
  tags : List String
  existing_object_category : String
  existing_object_tags : List String
  existing_object_name_en : String
  existing_object_name : String
  existing_object_description : String
  existing_object_hint : String
deriving DecidableEq, Repr

/-- Mirrors the `commonData` state shape (index.tsx lines 51-66): shared
metadata owned by the English tab. -/
structure CommonData where
  object_category : String
  tags : List String
  object_name_en_base : String
  existing_object_category : String
  existing_tags : List String
  existing_object_name_en_base : String
deriving DecidableEq, Repr

/-- The per-tab save status (index.tsx line 80). -/
inductive SaveStatus where
  | unsaved
  | saved
deriving DecidableEq, Repr

/-- A file handle: only the name and the declared media type matter to the
logic (validation and upload). -/
structure ImageFile where
  name : String
  type : String
deriving DecidableEq, Repr

/-- The application state: one field per `useState` slot of the `App`
component that participates in the claims (index.tsx lines 46-84).  The
tab-keyed dictionaries are total functions from language names; a key absent
from the JavaScript object is `none` (resp. `false`), matching `undefined`
truthiness. -/
structure AppState where
  file : Option ImageFile
  previewUrl : Option String
  selectedLanguages : List String
  activeTab : String
  languageResults : String → Option LanguageResult
  commonData : CommonData
  error : Option String
  isLoading : Bool
  originalResults : String → Option LanguageResult
  originalCommonData : CommonData
  isSaving : Bool
  saveMessage : Option String
  isEditing : String → Bool
  saveStatus : String → Option SaveStatus
  isDatabaseView : String → Bool
  hasExistingData : String → Bool

/-- Pointwise update of a tab-keyed dictionary (the `{ ...prev, [k]: v }` /
`delete` idiom). -/
def setKey {α : Type} (m : String → Option α) (k : String) (v : Option α) :
    String → Option α :=
  fun x => if x = k then v else m x

/-- Pointwise update of a boolean tab-keyed dictionary. -/
def setFlag (m : String → Bool) (k : String) (v : Bool) : String → Bool :=
  fun x => if x = k then v else m x

/-- The cleared `commonData` value (`{ object_category: '', tags: [],
object_name_en_base: '' }`, absent fields modelled as empty). -/
def emptyCommonData : CommonData :=
  { object_category := ""
    tags := []
    object_name_en_base := ""
    existing_object_category := ""
    existing_tags := []
    existing_object_name_en_base := "" }

/-- The allowed media types (index.tsx lines 301-304, `isValidFileType`). -/
def validTypes : List String :=
  ["image/jpeg", "image/png", "image/heic", "image/heif",
   "image/webp", "image/gif", "image/bmp", "image/tiff"]

/-- `isValidFileType` (index.tsx lines 300-306). -/
def isValidFileType (f : ImageFile) : Bool :=
  validTypes.contains f.type

/-- `handleDatabaseViewToggle` (index.tsx lines 188-194): flips the
database-view flag of the active tab and touches nothing else. -/
def handleDatabaseViewToggle (s : AppState) : AppState :=
  { s with isDatabaseView :=
      setFlag s.isDatabaseView s.activeTab (!s.isDatabaseView s.activeTab) }

/-- `handleLanguageToggle` (index.tsx lines 97-116).  When `language` is
currently selected it is removed from the selection, the active tab falls back
to `"English"` if it was the removed language, and the language's
`languageResults` entry is deleted; otherwise the language is appended to the
selection. -/
def handleLanguageToggle (s : AppState) (language : String) : AppState :=
  if language ∈ s.selectedLanguages then
    { s with
      selectedLanguages := s.selectedLanguages.filter (fun l => l ≠ language)
      activeTab := if s.activeTab = language then "English" else s.activeTab
      languageResults := setKey s.languageResults language none }
  else
    { s with selectedLanguages := s.selectedLanguages ++ [language] }

/-- `removeLanguageTab` (index.tsx lines 118-126): deletes the language's
`saveStatus` entry, then performs `handleLanguageToggle`. -/
def removeLanguageTab (s : AppState) (language : String) : AppState :=
  handleLanguageToggle
    { s with saveStatus := setKey s.saveStatus language none } language

/-- `handleFileChange` (index.tsx lines 128-147).  An invalid media type only
sets the error message; a valid file is stored, the error is cleared, and the
live results, shared metadata, database-view flags and existing-data flags are
reset.  (The asynchronous `resizeImage` callback later replaces `file` with
the re-encoded blob and sets `previewUrl`; it touches no other state slot and
is modelled separately by `resizeImage` below.) -/
def handleFileChange (s : AppState) (f : ImageFile) : AppState :=
  if !isValidFileType f then
    { s with error := some ("Unsupported file type. Please upload a valid " ++
        "image (jpg, jpeg, png, heic, heif, webp, gif, bmp, tiff).") }
  else
    { s with
      file := some f
      error := none
      languageResults := fun _ => none
      commonData := emptyCommonData
      isDatabaseView := fun _ => false
      hasExistingData := fun _ => false }

/-- Fuel-driven binary logarithm on naturals (the fuel makes the recursion
structural, so concrete instances reduce in the kernel).  With `fuel ≥ n` and
`n ≥ 1` it computes `⌊log₂ n⌋`. -/
def log2Fuel : ℕ → ℕ → ℕ
  | 0, _ => 0
  | fuel + 1, n => if n ≤ 1 then 0 else log2Fuel fuel (n / 2) + 1

/-- `⌊log₂ n⌋` for `n ≥ 1`. -/
def natLog2 (n : ℕ) : ℕ := log2Fuel n n

/-- The binary exponent of a positive rational: the unique `e` with
`2 ^ e ≤ q < 2 ^ (e + 1)`. -/
def ratExp (q : ℚ) : ℤ :=
  let e1 : ℤ := (natLog2 q.num.toNat : ℤ) - (natLog2 q.den : ℤ)
  if (2 : ℚ) ^ e1 ≤ q then e1 else e1 - 1

/-- Round a rational to the nearest integer, ties to even (the IEEE 754
default rounding of a value halfway between two representable numbers). -/
def rhe (r : ℚ) : ℤ :=
  if r - ⌊r⌋ < 1 / 2 then ⌊r⌋
  else if 1 / 2 < r - ⌊r⌋ then ⌊r⌋ + 1
  else if ⌊r⌋ % 2 = 0 then ⌊r⌋ else ⌊r⌋ + 1

/-- Round a positive rational to the nearest IEEE 754 binary64 value
(round-to-nearest, ties to even, 53-bit significand), with unbounded
exponent: the significand `q / 2 ^ (e - 52)` lies in `[2^52, 2^53)` and is
rounded to an integer.  This agrees exactly with binary64 arithmetic whenever
the result lies in the normal range (no overflow or subnormals), which holds
for every quantity arising from image dimensions in the ranges hypothesised
below. -/
def fl (q : ℚ) : ℚ :=
  if q ≤ 0 then 0
  else ((rhe (q / 2 ^ (ratExp q - 52)) : ℚ)) * 2 ^ (ratExp q - 52)

/-- `resizeImage` dimension computation (index.tsx lines 149-171): the canvas
width is set to `maxWidth = 800`; the canvas height to `img.height * scale`
with `scale = maxWidth / img.width`.  JavaScript computes both operations in
binary64: the operands (integer dimensions, far below 2^53) are exact, the
division and the multiplication each round once (`fl`).  Assigning the
resulting fractional number to `canvas.height` truncates it toward zero
(WebIDL `unsigned long` conversion); the value is nonnegative, so the
truncation is the floor. -/
def resizeImage (w h : ℕ) : ℕ × ℕ :=
  let scale : ℚ := fl (800 / (w : ℚ))
  (800, ⌊fl ((h : ℚ) * scale)⌋₊)

/-- Rounding to the nearest integer, `round(x)` of the specification. -/
def natRound (num den : ℕ) : ℕ := (2 * num + den) / (2 * den)

/-- The all-loading placeholder record created at the start of an identify run
(index.tsx lines 329-337). -/
def loadingRecord : LanguageResult :=
  { object_name := ""
    object_description := ""
    object_hint := ""
    isLoading := true
    error := none
    existing_object_name := ""
    existing_object_description := ""
    existing_object_hint := "" }

/-- The `LanguageResult` built from a successful identify response (index.tsx
lines 373-385 for English, 409-421 for the fan-out). -/
def recordOfResponse (d : ApiResponse) : LanguageResult :=
  { object_name := d.object_name_translated
    object_description := d.object_description
    object_hint := d.object_hint
    isLoading := false
    error := none
    existing_object_name := d.existing_object_name
    existing_object_description := d.existing_object_description
    existing_object_hint := d.existing_object_hint }

/-- The `LanguageResult` built from a failed per-language request (index.tsx
lines 422-433): empty fields and the exception message in `error`. -/
def failedRecord (msg : String) : LanguageResult :=
  { object_name := ""
    object_description := ""
    object_hint := ""
    isLoading := false
    error := some msg
    existing_object_name := ""
    existing_object_description := ""
    existing_object_hint := "" }

/-- The record a fan-out language ends up with, from its settled outcome. -/
def recordOfOutcome : Except String ApiResponse → LanguageResult
  | .ok d => recordOfResponse d
  | .error msg => failedRecord msg

/-- The snapshot stored in `originalResults` (index.tsx lines 464-489): the
same fields with `isLoading` and `error` omitted. -/
def stripTransient (r : LanguageResult) : LanguageResult :=
  { r with isLoading := false, error := none }

/-- The three-field existing-data test applied to each fan-out language
(index.tsx lines 452-459). -/
def hasExisting3 (r : LanguageResult) : Bool :=
  (r.existing_object_name != "") ||
  (r.existing_object_description != "") ||
  (r.existing_object_hint != "")

/-- The English existing-data test (index.tsx lines 366-371), which also
consults `existing_object_name_en`. -/
def hasEnglishExisting (d : ApiResponse) : Bool :=
  (d.existing_object_name_en != "") ||
  (d.existing_object_name != "") ||
  (d.existing_object_description != "") ||
  (d.existing_object_hint != "")

/-- The shared metadata built from the English response, used both for
`commonData` (index.tsx lines 355-363) and for the `originalCommonData`
snapshot (lines 493-500) — the two constructions are identical. -/
def commonDataOfResponse (d : ApiResponse) : CommonData :=
  { object_name_en_base := d.object_name_en
    object_category := d.object_category
    tags := d.tags
    existing_object_category := d.existing_object_category
    existing_tags := d.existing_object_tags
    existing_object_name_en_base := d.existing_object_name_en }

/-- `handleIdentify` (index.tsx lines 310-507), as a function of the settled
outcomes of the English request and of each per-language request.  The guards
(no file / no language) only set an error.  Otherwise the live results and
shared metadata are cleared and the loading placeholders installed; if the
English request fails, the run aborts with a global error.  On English
success the fan-out settles every per-language request independently
(`Promise.all` over promises whose rejections are caught individually), after
which the result map, existing-data flags, snapshots and save statuses are
rebuilt wholesale.  In the rebuilt dictionaries the fan-out entries are
written after the English entry, hence the selection test comes first. -/
def handleIdentify (s : AppState) (eng : Except String ApiResponse)
    (out : String → Except String ApiResponse) : AppState :=
  if s.file = none then
    { s with saveMessage := none
             error := some "Please upload an image first." }
  else if s.selectedLanguages = [] then
    { s with saveMessage := none
             error := some "Please select at least one language." }
  else
    let sel := s.selectedLanguages
    let loadingMap : String → Option LanguageResult :=
      fun l => if l = "English" ∨ l ∈ sel then some loadingRecord else none
    match eng with
    | .error msg =>
        { s with saveMessage := none
                 isLoading := false
                 error := some ("Error: " ++ msg)
                 languageResults := loadingMap
                 commonData := emptyCommonData }
    | .ok d =>
        let engRec := recordOfResponse d
        let langRec := fun l => recordOfOutcome (out l)
        { s with
          saveMessage := none
          isLoading := false
          error := none
          commonData := commonDataOfResponse d
          languageResults := fun l =>
            if l ∈ sel then some (langRec l)
            else if l = "English" then some engRec else none
          hasExistingData := fun l =>
            if l ∈ sel then hasExisting3 (langRec l)
            else if l = "English" then hasEnglishExisting d else false
          originalResults := fun l =>
            if l ∈ sel then some (stripTransient (langRec l))
            else if l = "English" then some (stripTransient engRec) else none
          saveStatus := fun l =>
            if l = "English" ∨ l ∈ sel then some SaveStatus.unsaved else none
          originalCommonData := commonDataOfResponse d }

/-- The `common_attributes` part of the save payload (index.tsx lines
232-254). -/
structure CommonAttributes where
  object_name_en : String
  object_category : String
  tags : List String
  userid : String
deriving DecidableEq, Repr

/-- One entry of the `language_attributes` part of the save payload (index.tsx
lines 241-246 and 256-261). -/
structure LanguageAttribute where
  language : String
  object_name : String
  object_description : String
  object_hint : String
deriving DecidableEq, Repr

/-- The body posted to the update endpoint (besides the image itself). -/
structure SavePayload where
  common_attributes : CommonAttributes
  language_attributes : List LanguageAttribute
deriving DecidableEq, Repr

/-- The payload `handleQuickSave` builds for the active tab (index.tsx lines
229-268); `none` when the guard (`!file || !languageResults[currentTab]`)
makes the handler a no-op. -/
def savePayload (s : AppState) : Option SavePayload :=
  match s.file, s.languageResults s.activeTab with
  | some _, some r =>
      let src := if s.activeTab = "English" then s.commonData
                 else s.originalCommonData
      some
        { common_attributes :=
            { object_name_en := src.object_name_en_base
              object_category := src.object_category
              tags := src.tags
              userid := "system" }
          language_attributes :=
            [{ language := s.activeTab
               object_name := r.object_name
               object_description := r.object_description
               object_hint := r.object_hint }] }
  | _, _ => none

/-- `handleQuickSave` (index.tsx lines 220-298) as a function of the settled
outcome of the update request.  On success the snapshots of the active tab
(and of the shared metadata when the active tab is English) are refreshed,
the tab is marked saved, edit mode is exited and a success message surfaced;
on failure only the error message is set (`isSaving` returns to `false`
either way). -/
def handleQuickSave (s : AppState) (outcome : Except String Unit) : AppState :=
  match s.file, s.languageResults s.activeTab with
  | some _, some r =>
      match outcome with
      | .ok _ =>
          { s with
            originalCommonData :=
              if s.activeTab = "English" then s.commonData
              else s.originalCommonData
            originalResults := setKey s.originalResults s.activeTab (some r)
            saveStatus := setKey s.saveStatus s.activeTab (some SaveStatus.saved)
            isEditing := setFlag s.isEditing s.activeTab false
            saveMessage := some (s.activeTab ++ " data saved successfully!")
            isSaving := false }
      | .error msg =>
          { s with
            saveMessage := some ("Error saving " ++ s.activeTab ++ ": " ++ msg)
            isSaving := false }
  | _, _ => s

/-- The editable per-language fields reachable through the UI inputs
(index.tsx lines 803-840 pass `object_name`, `object_description`,
`object_hint` to `updateLanguageResult`). -/
inductive LangField where
  | name
  | description
  | hint
deriving DecidableEq, Repr

/-- Field-wise record update, the `{ ...prev[language], [field]: value }`
spread. -/
def setField (r : LanguageResult) : LangField → String → LanguageResult
  | .name, v => { r with object_name := v }
  | .description, v => { r with object_description := v }
  | .hint, v => { r with object_hint := v }

/-- The empty record that results from spreading an absent entry
(`{ ...undefined }`). -/
def blankRecord : LanguageResult :=
  { object_name := ""
    object_description := ""
    object_hint := ""
    isLoading := false
    error := none
    existing_object_name := ""
    existing_object_description := ""
    existing_object_hint := "" }

/-- `updateLanguageResult` (index.tsx lines 509-519): mutates one field of the
language's record and immediately marks the tab unsaved. -/
def updateLanguageResult (s : AppState) (language : String) (field : LangField)
    (value : String) : AppState :=
  let base := match s.languageResults language with
    | some r => r
    | none => blankRecord
  { s with
    languageResults :=
      setKey s.languageResults language (some (setField base field value))
    saveStatus := setKey s.saveStatus language (some SaveStatus.unsaved) }

/-- `updateCommonData` restricted to what the claims need: any shared-metadata
edit marks the English tab unsaved (index.tsx lines 521-528). -/
def updateCommonData (s : AppState) (c : CommonData) : AppState :=
  { s with
    commonData := c
    saveStatus := setKey s.saveStatus "English" (some SaveStatus.unsaved) }

/-- A sample identify response carrying no existing data. -/
def freshResponse : ApiResponse :=
  { object_name_en := "apple"
    object_name_translated := "seb"
    object_description := "a fruit"
    object_hint := "keeps doctors away"
    object_category := "fruit"
    tags := ["food"]
    existing_object_category := ""
    existing_object_tags := []
    existing_object_name_en := ""
    existing_object_name := ""
    existing_object_description := ""
    existing_object_hint := "" }

/-- A sample per-tab record as produced by a settled identify run. -/
def sampleResult : LanguageResult :=
  { object_name := "pomme"
    object_description := "a fruit"
    object_hint := "red"
    isLoading := false
    error := none
    existing_object_name := ""
    existing_object_description := ""
    existing_object_hint := "" }

/-- A sample application state after a settled identify run with languages
Hindi and French, active tab French. -/
def baseState : AppState :=
  { file := some { name := "photo.png", type := "image/png" }
    previewUrl := some "data:preview"
    selectedLanguages := ["Hindi", "French"]
    activeTab := "French"
    languageResults := fun l =>
      if l = "English" ∨ l ∈ ["Hindi", "French"] then some sampleResult else none
    commonData :=
      { object_category := "fruit"
        tags := ["food"]
        object_name_en_base := "apple"
        existing_object_category := ""
        existing_tags := []
        existing_object_name_en_base := "" }
    error := none
    isLoading := false
    originalResults := fun l =>
      if l = "English" ∨ l ∈ ["Hindi", "French"] then some sampleResult else none
    originalCommonData := emptyCommonData
    isSaving := false
    saveMessage := none
    isEditing := fun _ => false
    saveStatus := fun l =>
      if l = "English" ∨ l ∈ ["Hindi", "French"] then some SaveStatus.unsaved
      else none
    isDatabaseView := fun _ => false
    hasExistingData := fun _ => false }

/-- A state whose active tab is in edit mode with database view off. -/
def editingState : AppState :=
  { baseState with
    activeTab := "English"
    isEditing := fun l => l == "English" }

/-- C1 counterexample: from a state whose active English tab is in edit mode,
the database-view toggle turns database view on but leaves the editing flag
true, so edit mode and database view are simultaneously true for that tab —
the toggle does not force edit mode off. -/
theorem databaseViewToggle_keeps_edit_mode_on :
    (handleDatabaseViewToggle editingState).isDatabaseView "English" = true ∧
    (handleDatabaseViewToggle editingState).isEditing "English" = true := by
  constructor <;> decide

/-- C1 (amended): the database-view toggle flips the active tab's
database-view flag and leaves every tab's editing flag unchanged; in
particular a tab that was not in edit mode stays out of edit mode, but a tab
already in edit mode keeps it, so the toggle does not force edit mode off. -/
theorem databaseViewToggle_preserves_isEditing (s : AppState) :
    (handleDatabaseViewToggle s).isEditing = s.isEditing ∧
    (handleDatabaseViewToggle s).isDatabaseView s.activeTab =
      !s.isDatabaseView s.activeTab := by
  refine ⟨rfl, ?_⟩
  simp [handleDatabaseViewToggle, setFlag]

/-- A state with one selected language, Hindi, which is active, has a save
status and has its database view toggled on. -/
def hindiState : AppState :=
  { baseState with
    selectedLanguages := ["Hindi"]
    activeTab := "Hindi"
    languageResults := fun l =>
      if l = "English" ∨ l = "Hindi" then some sampleResult else none
    saveStatus := fun l =>
      if l = "English" ∨ l = "Hindi" then some SaveStatus.unsaved else none
    isDatabaseView := fun l => l == "Hindi" }

/-- C2 counterexample: deselecting the active language Hindi through the
dropdown checkbox (`handleLanguageToggle`) deletes its `languageResults`
entry and falls the active tab back to English, but leaves its `saveStatus`
entry and its database-view entry in place; and even the dedicated removal
path (`removeLanguageTab`) leaves the database-view entry in place. -/
theorem languageToggle_leaves_saveStatus_and_viewMode :
    (handleLanguageToggle hindiState "Hindi").activeTab = "English" ∧
    (handleLanguageToggle hindiState "Hindi").languageResults "Hindi" = none ∧
    (handleLanguageToggle hindiState "Hindi").saveStatus "Hindi" =
      some SaveStatus.unsaved ∧
    (handleLanguageToggle hindiState "Hindi").isDatabaseView "Hindi" = true ∧
    (removeLanguageTab hindiState "Hindi").isDatabaseView "Hindi" = true := by
  refine ⟨?_, ?_, ?_, ?_, ?_⟩ <;> decide

/-- C2 (amended): removing a selected language `L` via the badge remove
button or the tab close button (`removeLanguageTab`) deletes `L`'s
`languageResults` entry and its `saveStatus` entry, removes `L` from the
selection and falls the active tab back to English when `L` was active,
while the database-view entry and the edit-mode flag are left untouched;
deselecting `L` through the dropdown checkbox (`handleLanguageToggle`)
deletes only the `languageResults` entry (with the same active-tab
fallback), leaving the `saveStatus` entry as well. -/
theorem remove_language_state (s : AppState) (language : String)
    (h : language ∈ s.selectedLanguages) :
    (removeLanguageTab s language).languageResults language = none ∧
    (removeLanguageTab s language).saveStatus language = none ∧
    (removeLanguageTab s language).activeTab =
      (if s.activeTab = language then "English" else s.activeTab) ∧
    language ∉ (removeLanguageTab s language).selectedLanguages ∧
    (removeLanguageTab s language).isDatabaseView = s.isDatabaseView ∧
    (removeLanguageTab s language).isEditing = s.isEditing ∧
    (handleLanguageToggle s language).languageResults language = none ∧
    (handleLanguageToggle s language).saveStatus = s.saveStatus ∧
    (handleLanguageToggle s language).isDatabaseView = s.isDatabaseView ∧
    (handleLanguageToggle s language).activeTab =
      (if s.activeTab = language then "English" else s.activeTab) := by
  refine ⟨?_, ?_, ?_, ?_, ?_, ?_, ?_, ?_, ?_, ?_⟩ <;>
    simp [removeLanguageTab, handleLanguageToggle, setKey, h, List.mem_filter]

/-- C2 amended witness: the amended removal behaviour at the concrete
`hindiState`. -/
theorem remove_language_state_witness :
    "Hindi" ∈ hindiState.selectedLanguages ∧
    ((removeLanguageTab hindiState "Hindi").languageResults "Hindi" = none ∧
     (removeLanguageTab hindiState "Hindi").saveStatus "Hindi" = none ∧
     (removeLanguageTab hindiState "Hindi").activeTab =
       (if hindiState.activeTab = "Hindi" then "English"
        else hindiState.activeTab) ∧
     "Hindi" ∉ (removeLanguageTab hindiState "Hindi").selectedLanguages ∧
     (removeLanguageTab hindiState "Hindi").isDatabaseView =
       hindiState.isDatabaseView ∧
     (removeLanguageTab hindiState "Hindi").isEditing = hindiState.isEditing ∧
     (handleLanguageToggle hindiState "Hindi").languageResults "Hindi" = none ∧
     (handleLanguageToggle hindiState "Hindi").saveStatus =
       hindiState.saveStatus ∧
     (handleLanguageToggle hindiState "Hindi").isDatabaseView =
       hindiState.isDatabaseView ∧
     (handleLanguageToggle hindiState "Hindi").activeTab =
       (if hindiState.activeTab = "Hindi" then "English"
        else hindiState.activeTab)) :=
  ⟨by decide, remove_language_state hindiState "Hindi" (by decide)⟩

/-- C10: accepting a valid image file leaves the per-tab save statuses,
edit-mode flags, per-tab snapshots and the shared-metadata snapshot
unchanged, while clearing the live records, the live shared metadata, the
database-view flags and the existing-data flags. -/
theorem fileChange_preserves_save_state (s : AppState) (f : ImageFile)
    (h : isValidFileType f = true) :
    (handleFileChange s f).saveStatus = s.saveStatus ∧
    (handleFileChange s f).isEditing = s.isEditing ∧
    (handleFileChange s f).originalResults = s.originalResults ∧
    (handleFileChange s f).originalCommonData = s.originalCommonData ∧
    (handleFileChange s f).languageResults = (fun _ => none) ∧
    (handleFileChange s f).commonData = emptyCommonData ∧
    (handleFileChange s f).isDatabaseView = (fun _ => false) ∧
    (handleFileChange s f).hasExistingData = (fun _ => false) := by
  simp [handleFileChange, h]

/-- C10 witness: intake of a concrete PNG file on `baseState`. -/
theorem fileChange_preserves_save_state_witness :
    isValidFileType { name := "next.png", type := "image/png" } = true ∧
    ((handleFileChange baseState { name := "next.png", type := "image/png" }).saveStatus =
       baseState.saveStatus ∧
     (handleFileChange baseState { name := "next.png", type := "image/png" }).isEditing =
       baseState.isEditing ∧
     (handleFileChange baseState { name := "next.png", type := "image/png" }).originalResults =
       baseState.originalResults ∧
     (handleFileChange baseState { name := "next.png", type := "image/png" }).originalCommonData =
       baseState.originalCommonData ∧
     (handleFileChange baseState { name := "next.png", type := "image/png" }).languageResults =
       (fun _ => none) ∧
     (handleFileChange baseState { name := "next.png", type := "image/png" }).commonData =
       emptyCommonData ∧
     (handleFileChange baseState { name := "next.png", type := "image/png" }).isDatabaseView =
       (fun _ => false) ∧
     (handleFileChange baseState { name := "next.png", type := "image/png" }).hasExistingData =
       (fun _ => false)) :=
  ⟨by decide,
   fileChange_preserves_save_state baseState
     { name := "next.png", type := "image/png" } (by decide)⟩

/-- With enough fuel, `log2Fuel` brackets its argument between consecutive
powers of two. -/
lemma log2Fuel_spec :
    ∀ fuel n, 1 ≤ n → n ≤ fuel →
      2 ^ log2Fuel fuel n ≤ n ∧ n < 2 ^ (log2Fuel fuel n + 1) := by
  intro fuel
  induction fuel with
  | zero => intro n h1 h2; omega
  | succ fuel ih =>
    intro n h1 h2
    by_cases hn : n ≤ 1
    · have hone : n = 1 := le_antisymm hn h1
      subst hone
      simp [log2Fuel]
    · simp only [log2Fuel, if_neg hn]
      have h2' : n / 2 ≤ fuel := by omega
      have h1' : 1 ≤ n / 2 := by omega
      obtain ⟨ha, hb⟩ := ih (n / 2) h1' h2'
      constructor
      · have : 2 ^ (log2Fuel fuel (n / 2) + 1) = 2 * 2 ^ log2Fuel fuel (n / 2) := by
          ring
        rw [this]
        omega
      · have hstep : n / 2 + 1 ≤ 2 ^ (log2Fuel fuel (n / 2) + 1) := hb
        have : 2 ^ (log2Fuel fuel (n / 2) + 1 + 1) =
            2 * 2 ^ (log2Fuel fuel (n / 2) + 1) := by ring
        rw [this]
        omega

/-- `natLog2` brackets every positive natural between consecutive powers of
two. -/
lemma natLog2_spec (n : ℕ) (h : 1 ≤ n) :
    2 ^ natLog2 n ≤ n ∧ n < 2 ^ (natLog2 n + 1) :=
  log2Fuel_spec n n h le_rfl

/-- `ratExp` is the binary exponent: it brackets every positive rational
between consecutive powers of two. -/
lemma ratExp_spec (q : ℚ) (hq : 0 < q) :
    (2 : ℚ) ^ ratExp q ≤ q ∧ q < 2 ^ (ratExp q + 1) := by
  have hnum : 0 < q.num := Rat.num_pos.2 hq
  have ha1 : 1 ≤ q.num.toNat := by omega
  have hb1 : 1 ≤ q.den := q.pos
  obtain ⟨haL, haU⟩ := natLog2_spec _ ha1
  obtain ⟨hbL, hbU⟩ := natLog2_spec _ hb1
  have htwo : (2 : ℚ) ≠ 0 := two_ne_zero
  have hb0 : (0 : ℚ) < (q.den : ℚ) := by exact_mod_cast hb1
  have hqab : q = ((q.num.toNat : ℕ) : ℚ) / ((q.den : ℕ) : ℚ) := by
    have hcast : ((q.num.toNat : ℕ) : ℚ) = ((q.num : ℤ) : ℚ) := by
      have htc : (q.num.toNat : ℤ) = q.num := Int.toNat_of_nonneg (le_of_lt hnum)
      exact_mod_cast htc
    rw [hcast, Rat.num_div_den]
  have haLQ : (2 : ℚ) ^ ((natLog2 q.num.toNat : ℤ)) ≤ (q.num.toNat : ℚ) := by
    rw [zpow_natCast]
    exact_mod_cast haL
  have haUQ : (q.num.toNat : ℚ) < 2 ^ ((natLog2 q.num.toNat : ℤ) + 1) := by
    have hcexp : (natLog2 q.num.toNat : ℤ) + 1 =
        ((natLog2 q.num.toNat + 1 : ℕ) : ℤ) := by push_cast; ring
    rw [hcexp, zpow_natCast]
    exact_mod_cast haU
  have hbLQ : (2 : ℚ) ^ ((natLog2 q.den : ℤ)) ≤ (q.den : ℚ) := by
    rw [zpow_natCast]
    exact_mod_cast hbL
  have hbUQ : (q.den : ℚ) < 2 ^ ((natLog2 q.den : ℤ) + 1) := by
    have hcexp : (natLog2 q.den : ℤ) + 1 = ((natLog2 q.den + 1 : ℕ) : ℤ) := by
      push_cast
      ring
    rw [hcexp, zpow_natCast]
    exact_mod_cast hbU
  have hlow : (2 : ℚ) ^ ((natLog2 q.num.toNat : ℤ) - (natLog2 q.den : ℤ) - 1)
      < q := by
    conv_rhs => rw [hqab]
    rw [lt_div_iff hb0]
    calc (2 : ℚ) ^ ((natLog2 q.num.toNat : ℤ) - (natLog2 q.den : ℤ) - 1) *
          (q.den : ℚ)
        < (2 : ℚ) ^ ((natLog2 q.num.toNat : ℤ) - (natLog2 q.den : ℤ) - 1) *
          2 ^ ((natLog2 q.den : ℤ) + 1) :=
          mul_lt_mul_of_pos_left hbUQ (zpow_pos (by norm_num) _)
      _ = (2 : ℚ) ^ ((natLog2 q.num.toNat : ℤ)) := by
          rw [← zpow_add₀ htwo]
          congr 1
          ring
      _ ≤ (q.num.toNat : ℚ) := haLQ
  have hhigh : q <
      (2 : ℚ) ^ ((natLog2 q.num.toNat : ℤ) - (natLog2 q.den : ℤ) + 1) := by
    conv_lhs => rw [hqab]
    rw [div_lt_iff hb0]
    calc ((q.num.toNat : ℕ) : ℚ)
        < 2 ^ ((natLog2 q.num.toNat : ℤ) + 1) := haUQ
      _ = (2 : ℚ) ^ ((natLog2 q.num.toNat : ℤ) - (natLog2 q.den : ℤ) + 1) *
          2 ^ ((natLog2 q.den : ℤ)) := by
          rw [← zpow_add₀ htwo]
          congr 1
          ring
      _ ≤ (2 : ℚ) ^ ((natLog2 q.num.toNat : ℤ) - (natLog2 q.den : ℤ) + 1) *
          (q.den : ℚ) :=
          mul_le_mul_of_nonneg_left hbLQ (le_of_lt (zpow_pos (by norm_num) _))
  have hre : ratExp q =
      if (2 : ℚ) ^ ((natLog2 q.num.toNat : ℤ) - (natLog2 q.den : ℤ)) ≤ q then
        (natLog2 q.num.toNat : ℤ) - (natLog2 q.den : ℤ)
      else (natLog2 q.num.toNat : ℤ) - (natLog2 q.den : ℤ) - 1 := rfl
  by_cases hbr :
      (2 : ℚ) ^ ((natLog2 q.num.toNat : ℤ) - (natLog2 q.den : ℤ)) ≤ q
  · rw [hre, if_pos hbr]
    exact ⟨hbr, by simpa using hhigh⟩
  · rw [hre, if_neg hbr]
    refine ⟨le_of_lt hlow, ?_⟩
    simpa using not_le.1 hbr

/-- Round-to-nearest is within half of the value. -/
lemma abs_rhe_sub_le (r : ℚ) : |(rhe r : ℚ) - r| ≤ 1 / 2 := by
  have h0 : (⌊r⌋ : ℚ) ≤ r := Int.floor_le r
  have h1 : r < ⌊r⌋ + 1 := Int.lt_floor_add_one r
  unfold rhe
  by_cases hc1 : r - ⌊r⌋ < 1 / 2
  · rw [if_pos hc1, abs_le]
    constructor <;> linarith
  · rw [if_neg hc1]
    by_cases hc2 : 1 / 2 < r - ⌊r⌋
    · rw [if_pos hc2]
      push_cast
      rw [abs_le]
      constructor <;> linarith
    · rw [if_neg hc2]
      have hmid : r - ⌊r⌋ = 1 / 2 := le_antisymm (not_lt.1 hc2) (not_lt.1 hc1)
      by_cases hc3 : ⌊r⌋ % 2 = 0
      · rw [if_pos hc3, abs_le]
        constructor <;> linarith
      · rw [if_neg hc3]
        push_cast
        rw [abs_le]
        constructor <;> linarith

/-- Relative error of one binary64 rounding: `fl` is within one part in
`2^53` of its positive argument. -/
lemma abs_fl_sub_le (q : ℚ) (hq : 0 < q) : |fl q - q| ≤ q / 2 ^ 53 := by
  unfold fl
  rw [if_neg (not_le.2 hq)]
  obtain ⟨hlo, _⟩ := ratExp_spec q hq
  have h2s : (0 : ℚ) < 2 ^ (ratExp q - 52) := zpow_pos (by norm_num) _
  have hrd := abs_rhe_sub_le (q / 2 ^ (ratExp q - 52))
  have hfactor : (rhe (q / 2 ^ (ratExp q - 52)) : ℚ) * 2 ^ (ratExp q - 52) - q =
      ((rhe (q / 2 ^ (ratExp q - 52)) : ℚ) - q / 2 ^ (ratExp q - 52)) *
        2 ^ (ratExp q - 52) := by
    rw [sub_mul, div_mul_cancel₀ _ (ne_of_gt h2s)]
  rw [hfactor, abs_mul, abs_of_pos h2s]
  calc |(rhe (q / 2 ^ (ratExp q - 52)) : ℚ) - q / 2 ^ (ratExp q - 52)| *
        2 ^ (ratExp q - 52)
      ≤ 1 / 2 * 2 ^ (ratExp q - 52) :=
        mul_le_mul_of_nonneg_right hrd (le_of_lt h2s)
    _ = 2 ^ (ratExp q - 53) := by
        rw [show ratExp q - 53 = ratExp q - 52 + (-1) by ring,
          zpow_add₀ two_ne_zero (ratExp q - 52) (-1), zpow_neg_one]
        ring
    _ ≤ q / 2 ^ 53 := by
        rw [le_div_iff (by positivity : (0 : ℚ) < 2 ^ 53),
          ← zpow_natCast (2 : ℚ) 53, ← zpow_add₀ two_ne_zero]
        have hexp : ratExp q - 53 + ((53 : ℕ) : ℤ) = ratExp q := by
          push_cast
          ring
        rw [hexp]
        exact hlo

/-- The binary exponent is unique: any `e` bracketing `q` is `ratExp q`. -/
lemma ratExp_eq (q : ℚ) (e : ℤ) (h1 : (2 : ℚ) ^ e ≤ q) (h2 : q < 2 ^ (e + 1)) :
    ratExp q = e := by
  have hq : 0 < q := lt_of_lt_of_le (zpow_pos (by norm_num) e) h1
  obtain ⟨hl, hh⟩ := ratExp_spec q hq
  by_contra hne
  rcases lt_or_gt_of_ne hne with hlt | hgt
  · have hle : (2 : ℚ) ^ (ratExp q + 1) ≤ 2 ^ e := by
      apply zpow_le_zpow_right₀ (by norm_num)
      omega
    linarith
  · have hle : (2 : ℚ) ^ (e + 1) ≤ 2 ^ ratExp q := by
      apply zpow_le_zpow_right₀ (by norm_num)
      omega
    linarith

/-- Evaluation form of `fl` at a known binary exponent. -/
lemma fl_eq (q : ℚ) (e : ℤ) (h1 : (2 : ℚ) ^ e ≤ q) (h2 : q < 2 ^ (e + 1)) :
    fl q = (rhe (q / 2 ^ (e - 52)) : ℚ) * 2 ^ (e - 52) := by
  have hq : 0 < q := lt_of_lt_of_le (zpow_pos (by norm_num) e) h1
  unfold fl
  rw [if_neg (not_le.2 hq), ratExp_eq q e h1 h2]

/-- Evaluation form of `rhe` when the fractional part exceeds one half. -/
lemma rhe_eq_add_one (r : ℚ) (n : ℤ) (h1 : (n : ℚ) ≤ r) (h2 : r < n + 1)
    (h3 : 1 / 2 < r - n) : rhe r = n + 1 := by
  have hf : ⌊r⌋ = n := by
    rw [Int.floor_eq_iff]
    exact ⟨h1, h2⟩
  unfold rhe
  rw [hf, if_neg (by linarith), if_pos (by linarith)]

/-- C9 counterexample: for a 1000x1001 image the double-precision scaled
height is just above `800.8` (the two binary64 roundings land on
`7043911292184167 * 2^-43 ≈ 800.80000000000001`) and truncates to 800, while
rounding `1001 * 800 / 1000 = 800.8` to the nearest integer gives 801, so
the produced height is not `round(h * 800 / w)`. -/
theorem resize_height_truncates_not_rounds :
    resizeImage 1000 1001 = (800, 800) ∧
    natRound (1001 * 800) 1000 = 801 ∧ (800 : ℕ) ≠ 801 := by
  refine ⟨?_, by decide, by decide⟩
  have hx : (800 : ℚ) / (1000 : ℚ) = 4 / 5 := by norm_num
  have hz53 : (2 : ℚ) ^ ((-1 : ℤ) - 52) = 1 / 2 ^ 53 := by norm_num
  have hflx : fl ((800 : ℚ) / (1000 : ℚ)) = 7205759403792794 / 2 ^ 53 := by
    rw [hx, fl_eq (4 / 5 : ℚ) (-1) (by norm_num) (by norm_num), hz53]
    have hy : (4 / 5 : ℚ) / (1 / 2 ^ 53) = 36028797018963968 / 5 := by
      norm_num
    rw [hy, rhe_eq_add_one _ 7205759403792793 (by norm_num) (by norm_num)
      (by norm_num)]
    push_cast
    norm_num
  show (800, ⌊fl ((1001 : ℚ) * fl (800 / (1000 : ℚ)))⌋₊) = (800, 800)
  rw [hflx]
  have hp : (1001 : ℚ) * (7205759403792794 / 2 ^ 53) =
      7212965163196586794 / 2 ^ 53 := by norm_num
  rw [hp]
  have hz43 : (2 : ℚ) ^ ((9 : ℤ) - 52) = 1 / 2 ^ 43 := by norm_num
  have hflp : fl ((7212965163196586794 : ℚ) / 2 ^ 53) =
      7043911292184167 / 2 ^ 43 := by
    rw [fl_eq _ 9 (by norm_num) (by norm_num), hz43]
    have hy : (7212965163196586794 : ℚ) / 2 ^ 53 / (1 / 2 ^ 43) =
        7212965163196586794 / 2 ^ 10 := by norm_num
    rw [hy, rhe_eq_add_one _ 7043911292184166 (by push_cast; norm_num)
      (by push_cast; norm_num) (by push_cast; norm_num)]
    push_cast
    norm_num
  rw [hflp]
  have hfloor : ⌊(7043911292184167 / 2 ^ 43 : ℚ)⌋₊ = 800 := by
    rw [Nat.floor_eq_iff (by positivity)]
    constructor <;> norm_num
  rw [hfloor]

/-- C9 (amended): for any decoded width exceeding 800 pixels (both
dimensions at most `2^32`, far beyond any decodable bitmap, and within the
range where `fl` coincides with IEEE binary64), the resized output has width
exactly 800 and a height within one of `⌊originalHeight * 800 /
originalWidth⌋`: the scaled height is computed in double precision and
truncated toward zero, so it need not equal `round(h * 800 / w)` and the two
roundings can even shift it off the exact floor by one. -/
theorem resize_dims (w h : ℕ) (hw : 800 < w) (hwB : w ≤ 2 ^ 32)
    (hh : 0 < h) (hhB : h ≤ 2 ^ 32) :
    (resizeImage w h).1 = 800 ∧
    h * 800 / w ≤ (resizeImage w h).2 + 1 ∧
    (resizeImage w h).2 ≤ h * 800 / w + 1 := by
  have hw0 : (0 : ℚ) < (w : ℚ) := by
    have : 0 < w := by omega
    exact_mod_cast this
  have hh0 : (0 : ℚ) < (h : ℚ) := by exact_mod_cast hh
  set x : ℚ := 800 / (w : ℚ) with hxdef
  have hx0 : 0 < x := by positivity
  have hs := abs_fl_sub_le x hx0
  have hs0 : 0 < fl x := by
    have hd : x / 2 ^ 53 < x := div_lt_self hx0 (by norm_num)
    have := abs_le.1 hs
    linarith [this.1]
  set p : ℚ := (h : ℚ) * fl x with hpdef
  have hp0 : 0 < p := mul_pos hh0 hs0
  have hr := abs_fl_sub_le p hp0
  set q : ℚ := (h : ℚ) * x with hqdef
  have hq0 : 0 < q := mul_pos hh0 hx0
  have hps : |p - q| ≤ q / 2 ^ 53 := by
    have hdiff : p - q = (h : ℚ) * (fl x - x) := by rw [hpdef, hqdef]; ring
    rw [hdiff, abs_mul, abs_of_pos hh0]
    calc (h : ℚ) * |fl x - x| ≤ (h : ℚ) * (x / 2 ^ 53) :=
          mul_le_mul_of_nonneg_left hs (le_of_lt hh0)
      _ = q / 2 ^ 53 := by rw [hqdef]; ring
  have hpq : p ≤ 2 * q := by
    have h1 := abs_le.1 hps
    have hqd : q / 2 ^ 53 ≤ q := le_of_lt (div_lt_self hq0 (by norm_num))
    linarith [h1.2]
  have hrq : |fl p - q| ≤ 3 * q / 2 ^ 53 := by
    have h1 := abs_le.1 hr
    have h2 := abs_le.1 hps
    have h3 : p / 2 ^ 53 ≤ 2 * q / 2 ^ 53 :=
      (div_le_div_right (by positivity)).2 hpq
    rw [abs_le]
    constructor <;> linarith
  have hqB : q < 2 ^ 32 := by
    rw [hqdef, hxdef]
    have h800w : (800 : ℚ) / (w : ℚ) < 1 := by
      rw [div_lt_one hw0]
      exact_mod_cast hw
    calc (h : ℚ) * (800 / (w : ℚ)) < (h : ℚ) * 1 :=
          mul_lt_mul_of_pos_left h800w hh0
      _ = (h : ℚ) := mul_one _
      _ ≤ 2 ^ 32 := by exact_mod_cast hhB
  have hhalf : 3 * q / 2 ^ 53 < 1 / 2 := by
    rw [div_lt_iff (by positivity : (0 : ℚ) < 2 ^ 53)]
    have haux : (3 : ℚ) * 2 ^ 32 ≤ 1 / 2 * 2 ^ 53 := by norm_num
    linarith
  have habs : |fl p - q| < 1 / 2 := lt_of_le_of_lt hrq hhalf
  have hflp0 : 0 < fl p := by
    have hd : p / 2 ^ 53 < p := div_lt_self hp0 (by norm_num)
    have h1 := abs_le.1 hr
    linarith [h1.1]
  have hD : h * 800 / w = ⌊q⌋₊ := by
    rw [hqdef, hxdef]
    have hcast : (h : ℚ) * (800 / (w : ℚ)) =
        ((h * 800 : ℕ) : ℚ) / ((w : ℕ) : ℚ) := by
      push_cast
      ring
    rw [hcast, Nat.floor_div_nat, Nat.floor_natCast]
  have hres2 : (resizeImage w h).2 = ⌊fl p⌋₊ := by
    rw [hpdef, hxdef]
    rfl
  refine ⟨rfl, ?_, ?_⟩
  · rw [hres2, hD]
    have hq1 : (⌊q⌋₊ : ℚ) ≤ q := Nat.floor_le (le_of_lt hq0)
    have hp1 : fl p < ⌊fl p⌋₊ + 1 := Nat.lt_floor_add_one (fl p)
    have h1 := abs_le.1 habs.le
    have hlt : (⌊q⌋₊ : ℚ) < (⌊fl p⌋₊ : ℚ) + 2 := by linarith [h1.1]
    have hlt2 : ⌊q⌋₊ < ⌊fl p⌋₊ + 2 := by exact_mod_cast hlt
    omega
  · rw [hres2, hD]
    have hp1 : (⌊fl p⌋₊ : ℚ) ≤ fl p := Nat.floor_le (le_of_lt hflp0)
    have hq1 : q < ⌊q⌋₊ + 1 := Nat.lt_floor_add_one q
    have h1 := abs_le.1 habs.le
    have hlt : (⌊fl p⌋₊ : ℚ) < (⌊q⌋₊ : ℚ) + 2 := by linarith [h1.2]
    have hlt2 : ⌊fl p⌋₊ < ⌊q⌋₊ + 2 := by exact_mod_cast hlt
    omega

/-- C9 amended witness: the resize bounds of a concrete 1000x999 image. -/
theorem resize_dims_witness :
    800 < 1000 ∧ 1000 ≤ 2 ^ 32 ∧ 0 < 999 ∧ 999 ≤ 2 ^ 32 ∧
    ((resizeImage 1000 999).1 = 800 ∧
     999 * 800 / 1000 ≤ (resizeImage 1000 999).2 + 1 ∧
     (resizeImage 1000 999).2 ≤ 999 * 800 / 1000 + 1) :=
  ⟨by decide, by decide, by decide, by decide,
   resize_dims 1000 999 (by decide) (by decide) (by decide) (by decide)⟩

/-- The `common_attributes` built from a shared-metadata value (index.tsx
lines 234-239 and 249-254: `object_name_en`, `object_category`, `tags` from
the chosen metadata and the constant user identity). -/
def commonAttributesOf (c : CommonData) : CommonAttributes :=
  { object_name_en := c.object_name_en_base
    object_category := c.object_category
    tags := c.tags
    userid := "system" }

/-- C6: whenever the save guard passes (a file exists and the active tab has
a record), the payload carries the current, possibly edited, shared metadata
when the active tab is English and the original unedited shared metadata for
any other tab, and its `language_attributes` is exactly one entry holding the
active tab's current name, description and hint. -/
theorem savePayload_spec (s : AppState) (f : ImageFile) (r : LanguageResult)
    (hf : s.file = some f) (hr : s.languageResults s.activeTab = some r) :
    savePayload s = some
      { common_attributes :=
          commonAttributesOf
            (if s.activeTab = "English" then s.commonData
             else s.originalCommonData)
        language_attributes :=
          [{ language := s.activeTab
             object_name := r.object_name
             object_description := r.object_description
             object_hint := r.object_hint }] } := by
  simp only [savePayload, hf, hr]
  by_cases hEn : s.activeTab = "English" <;> simp [hEn, commonAttributesOf]

/-- C6 witness: the payload built on `baseState` (active tab French). -/
theorem savePayload_spec_witness :
    baseState.file = some { name := "photo.png", type := "image/png" } ∧
    baseState.languageResults baseState.activeTab = some sampleResult ∧
    savePayload baseState = some
      { common_attributes :=
          commonAttributesOf
            (if baseState.activeTab = "English" then baseState.commonData
             else baseState.originalCommonData)
        language_attributes :=
          [{ language := baseState.activeTab
             object_name := sampleResult.object_name
             object_description := sampleResult.object_description
             object_hint := sampleResult.object_hint }] } :=
  ⟨by decide, by decide,
   savePayload_spec baseState { name := "photo.png", type := "image/png" }
     sampleResult (by decide) (by decide)⟩

/-- C7: on a successful save of the active tab, the tab's snapshot is
refreshed to the just-saved record (and the shared-metadata snapshot to the
current shared metadata when the tab is English), the tab's save status
becomes `saved`, its edit mode is exited and a success message naming the tab
is surfaced; a subsequent field edit to that tab flips its save status back
to `unsaved`. -/
theorem quickSave_success (s : AppState) (f : ImageFile) (r : LanguageResult)
    (field : LangField) (v : String)
    (hf : s.file = some f) (hr : s.languageResults s.activeTab = some r) :
    (handleQuickSave s (.ok ())).originalResults s.activeTab = some r ∧
    (s.activeTab = "English" →
      (handleQuickSave s (.ok ())).originalCommonData = s.commonData) ∧
    (handleQuickSave s (.ok ())).saveStatus s.activeTab =
      some SaveStatus.saved ∧
    (handleQuickSave s (.ok ())).isEditing s.activeTab = false ∧
    (handleQuickSave s (.ok ())).saveMessage =
      some (s.activeTab ++ " data saved successfully!") ∧
    (updateLanguageResult (handleQuickSave s (.ok ())) s.activeTab field
        v).saveStatus s.activeTab = some SaveStatus.unsaved := by
  refine ⟨?_, ?_, ?_, ?_, ?_, ?_⟩ <;>
    simp [handleQuickSave, updateLanguageResult, setKey, setFlag, hf, hr]
  intro hEn
  simp [hEn]

/-- C7 witness: a successful save of the active French tab of `baseState`,
followed by an edit of the French hint. -/
theorem quickSave_success_witness :
    baseState.file = some { name := "photo.png", type := "image/png" } ∧
    baseState.languageResults baseState.activeTab = some sampleResult ∧
    ((handleQuickSave baseState (.ok ())).originalResults baseState.activeTab =
       some sampleResult ∧
     (baseState.activeTab = "English" →
       (handleQuickSave baseState (.ok ())).originalCommonData =
         baseState.commonData) ∧
     (handleQuickSave baseState (.ok ())).saveStatus baseState.activeTab =
       some SaveStatus.saved ∧
     (handleQuickSave baseState (.ok ())).isEditing baseState.activeTab =
       false ∧
     (handleQuickSave baseState (.ok ())).saveMessage =
       some (baseState.activeTab ++ " data saved successfully!") ∧
     (updateLanguageResult (handleQuickSave baseState (.ok ()))
         baseState.activeTab LangField.hint "ripe").saveStatus
         baseState.activeTab = some SaveStatus.unsaved) :=
  ⟨by decide, by decide,
   quickSave_success baseState { name := "photo.png", type := "image/png" }
     sampleResult LangField.hint "ripe" (by decide) (by decide)⟩

/-- C8: on a failed save of the active tab, every state slot — the live
records, shared metadata, snapshots, save statuses, edit-mode, view-mode and
existing-data flags, the selection and the active tab — is left unchanged,
except that an error message naming the tab is surfaced; in particular a tab
whose status was `unsaved` stays `unsaved`. -/
theorem quickSave_failure (s : AppState) (f : ImageFile) (r : LanguageResult)
    (msg : String)
    (hf : s.file = some f) (hr : s.languageResults s.activeTab = some r) :
    (handleQuickSave s (.error msg)).languageResults = s.languageResults ∧
    (handleQuickSave s (.error msg)).commonData = s.commonData ∧
    (handleQuickSave s (.error msg)).originalResults = s.originalResults ∧
    (handleQuickSave s (.error msg)).originalCommonData =
      s.originalCommonData ∧
    (handleQuickSave s (.error msg)).saveStatus = s.saveStatus ∧
    (handleQuickSave s (.error msg)).isEditing = s.isEditing ∧
    (handleQuickSave s (.error msg)).isDatabaseView = s.isDatabaseView ∧
    (handleQuickSave s (.error msg)).hasExistingData = s.hasExistingData ∧
    (handleQuickSave s (.error msg)).selectedLanguages =
      s.selectedLanguages ∧
    (handleQuickSave s (.error msg)).activeTab = s.activeTab ∧
    (handleQuickSave s (.error msg)).saveMessage =
      some ("Error saving " ++ s.activeTab ++ ": " ++ msg) ∧
    (s.saveStatus s.activeTab = some SaveStatus.unsaved →
      (handleQuickSave s (.error msg)).saveStatus s.activeTab =
        some SaveStatus.unsaved) := by
  refine ⟨?_, ?_, ?_, ?_, ?_, ?_, ?_, ?_, ?_, ?_, ?_, ?_⟩ <;>
    simp [handleQuickSave, hf, hr]

/-- C8 witness: a failed save of the active French tab of `baseState`. -/
theorem quickSave_failure_witness :
    baseState.file = some { name := "photo.png", type := "image/png" } ∧
    baseState.languageResults baseState.activeTab = some sampleResult ∧
    ((handleQuickSave baseState
        (.error "Failed to save to database")).languageResults =
       baseState.languageResults ∧
     (handleQuickSave baseState
        (.error "Failed to save to database")).commonData =
       baseState.commonData ∧
     (handleQuickSave baseState
        (.error "Failed to save to database")).originalResults =
       baseState.originalResults ∧
     (handleQuickSave baseState
        (.error "Failed to save to database")).originalCommonData =
       baseState.originalCommonData ∧
     (handleQuickSave baseState
        (.error "Failed to save to database")).saveStatus =
       baseState.saveStatus ∧
     (handleQuickSave baseState
        (.error "Failed to save to database")).isEditing =
       baseState.isEditing ∧
     (handleQuickSave baseState
        (.error "Failed to save to database")).isDatabaseView =
       baseState.isDatabaseView ∧
     (handleQuickSave baseState
        (.error "Failed to save to database")).hasExistingData =
       baseState.hasExistingData ∧
     (handleQuickSave baseState
        (.error "Failed to save to database")).selectedLanguages =
       baseState.selectedLanguages ∧
     (handleQuickSave baseState
        (.error "Failed to save to database")).activeTab =
       baseState.activeTab ∧
     (handleQuickSave baseState
        (.error "Failed to save to database")).saveMessage =
       some ("Error saving " ++ baseState.activeTab ++ ": " ++
         "Failed to save to database") ∧
     (baseState.saveStatus baseState.activeTab = some SaveStatus.unsaved →
       (handleQuickSave baseState
          (.error "Failed to save to database")).saveStatus
          baseState.activeTab = some SaveStatus.unsaved)) :=
  ⟨by decide, by decide,
   quickSave_failure baseState { name := "photo.png", type := "image/png" }
     sampleResult "Failed to save to database" (by decide) (by decide)⟩

/-- Reduction of `handleIdentify` on the success path: with a file present and
a non-empty selection, an English success rebuilds the per-run dictionaries
wholesale from the settled outcomes. -/
lemma handleIdentify_ok_eq (s : AppState) (f : ImageFile) (d : ApiResponse)
    (out : String → Except String ApiResponse)
    (hf : s.file = some f) (hsel : s.selectedLanguages ≠ []) :
    handleIdentify s (.ok d) out =
      { s with
        saveMessage := none
        isLoading := false
        error := none
        commonData := commonDataOfResponse d
        languageResults := fun l =>
          if l ∈ s.selectedLanguages then some (recordOfOutcome (out l))
          else if l = "English" then some (recordOfResponse d) else none
        hasExistingData := fun l =>
          if l ∈ s.selectedLanguages then hasExisting3 (recordOfOutcome (out l))
          else if l = "English" then hasEnglishExisting d else false
        originalResults := fun l =>
          if l ∈ s.selectedLanguages then
            some (stripTransient (recordOfOutcome (out l)))
          else if l = "English" then some (stripTransient (recordOfResponse d))
          else none
        saveStatus := fun l =>
          if l = "English" ∨ l ∈ s.selectedLanguages then
            some SaveStatus.unsaved
          else none
        originalCommonData := commonDataOfResponse d } := by
  simp [handleIdentify, hf, hsel]

/-- A settled state whose Hindi tab was left in edit mode with database view
on before a new identify run. -/
def staleFlagsState : AppState :=
  { baseState with
    selectedLanguages := ["Hindi"]
    isEditing := fun l => l == "Hindi"
    isDatabaseView := fun l => l == "Hindi" }

/-- C3 counterexample: re-invoking identify from a state whose Hindi tab had
edit mode and database view on produces a run whose Hindi tab is populated
with the fresh record, yet still carries the previous run's edit-mode and
database-view flags — they are never cleared. -/
theorem identify_keeps_stale_tab_flags :
    (handleIdentify staleFlagsState (.ok freshResponse)
        (fun _ => .ok freshResponse)).languageResults "Hindi" =
      some (recordOfResponse freshResponse) ∧
    (handleIdentify staleFlagsState (.ok freshResponse)
        (fun _ => .ok freshResponse)).isEditing "Hindi" = true ∧
    (handleIdentify staleFlagsState (.ok freshResponse)
        (fun _ => .ok freshResponse)).isDatabaseView "Hindi" = true := by
  refine ⟨?_, ?_, ?_⟩ <;> decide

/-- C3 (amended): re-invoking identify with a file present clears the live
records and shared metadata, and on a successful settlement replaces the
result map, save statuses, snapshots and existing-data flags wholesale —
every selected tab, and likewise the English tab, gets state derived only
from the new run's outcomes, and tabs outside the new run have no entries —
but the per-tab edit-mode and database-view flags are never cleared and
survive into the new run's tabs. -/
theorem identify_rebuilds_per_run_state (s : AppState) (f : ImageFile)
    (d : ApiResponse) (out : String → Except String ApiResponse) (l : String)
    (hf : s.file = some f) (hsel : s.selectedLanguages ≠ []) :
    (handleIdentify s (.ok d) out).isEditing = s.isEditing ∧
    (handleIdentify s (.ok d) out).isDatabaseView = s.isDatabaseView ∧
    (handleIdentify s (.ok d) out).commonData = commonDataOfResponse d ∧
    (handleIdentify s (.ok d) out).originalCommonData =
      commonDataOfResponse d ∧
    (l ∈ s.selectedLanguages →
      (handleIdentify s (.ok d) out).languageResults l =
        some (recordOfOutcome (out l)) ∧
      (handleIdentify s (.ok d) out).saveStatus l =
        some SaveStatus.unsaved ∧
      (handleIdentify s (.ok d) out).originalResults l =
        some (stripTransient (recordOfOutcome (out l))) ∧
      (handleIdentify s (.ok d) out).hasExistingData l =
        hasExisting3 (recordOfOutcome (out l))) ∧
    (l ∉ s.selectedLanguages → l ≠ "English" →
      (handleIdentify s (.ok d) out).languageResults l = none ∧
      (handleIdentify s (.ok d) out).saveStatus l = none ∧
      (handleIdentify s (.ok d) out).originalResults l = none ∧
      (handleIdentify s (.ok d) out).hasExistingData l = false) ∧
    ("English" ∉ s.selectedLanguages →
      (handleIdentify s (.ok d) out).languageResults "English" =
        some (recordOfResponse d) ∧
      (handleIdentify s (.ok d) out).saveStatus "English" =
        some SaveStatus.unsaved ∧
      (handleIdentify s (.ok d) out).originalResults "English" =
        some (stripTransient (recordOfResponse d)) ∧
      (handleIdentify s (.ok d) out).hasExistingData "English" =
        hasEnglishExisting d) := by
  rw [handleIdentify_ok_eq s f d out hf hsel]
  refine ⟨rfl, rfl, rfl, rfl, ?_, ?_, ?_⟩
  · intro hm
    simp [hm]
  · intro hm hne
    simp [hm, hne]
  · intro hEng
    simp [hEng]

/-- C3 amended witness: the rebuilt per-run state at `staleFlagsState`,
queried at the selected language Hindi. -/
theorem identify_rebuilds_per_run_state_witness :
    staleFlagsState.file = some { name := "photo.png", type := "image/png" } ∧
    staleFlagsState.selectedLanguages ≠ [] ∧
    ((handleIdentify staleFlagsState (.ok freshResponse)
        (fun _ => .ok freshResponse)).isEditing = staleFlagsState.isEditing ∧
     (handleIdentify staleFlagsState (.ok freshResponse)
        (fun _ => .ok freshResponse)).isDatabaseView =
       staleFlagsState.isDatabaseView ∧
     (handleIdentify staleFlagsState (.ok freshResponse)
        (fun _ => .ok freshResponse)).commonData =
       commonDataOfResponse freshResponse ∧
     (handleIdentify staleFlagsState (.ok freshResponse)
        (fun _ => .ok freshResponse)).originalCommonData =
       commonDataOfResponse freshResponse ∧
     ("Hindi" ∈ staleFlagsState.selectedLanguages →
       (handleIdentify staleFlagsState (.ok freshResponse)
          (fun _ => .ok freshResponse)).languageResults "Hindi" =
         some (recordOfOutcome (Except.ok freshResponse)) ∧
       (handleIdentify staleFlagsState (.ok freshResponse)
          (fun _ => .ok freshResponse)).saveStatus "Hindi" =
         some SaveStatus.unsaved ∧
       (handleIdentify staleFlagsState (.ok freshResponse)
          (fun _ => .ok freshResponse)).originalResults "Hindi" =
         some (stripTransient (recordOfOutcome (Except.ok freshResponse))) ∧
       (handleIdentify staleFlagsState (.ok freshResponse)
          (fun _ => .ok freshResponse)).hasExistingData "Hindi" =
         hasExisting3 (recordOfOutcome (Except.ok freshResponse))) ∧
     ("Hindi" ∉ staleFlagsState.selectedLanguages → "Hindi" ≠ "English" →
       (handleIdentify staleFlagsState (.ok freshResponse)
          (fun _ => .ok freshResponse)).languageResults "Hindi" = none ∧
       (handleIdentify staleFlagsState (.ok freshResponse)
          (fun _ => .ok freshResponse)).saveStatus "Hindi" = none ∧
       (handleIdentify staleFlagsState (.ok freshResponse)
          (fun _ => .ok freshResponse)).originalResults "Hindi" = none ∧
       (handleIdentify staleFlagsState (.ok freshResponse)
          (fun _ => .ok freshResponse)).hasExistingData "Hindi" = false) ∧
     ("English" ∉ staleFlagsState.selectedLanguages →
       (handleIdentify staleFlagsState (.ok freshResponse)
          (fun _ => .ok freshResponse)).languageResults "English" =
         some (recordOfResponse freshResponse) ∧
       (handleIdentify staleFlagsState (.ok freshResponse)
          (fun _ => .ok freshResponse)).saveStatus "English" =
         some SaveStatus.unsaved ∧
       (handleIdentify staleFlagsState (.ok freshResponse)
          (fun _ => .ok freshResponse)).originalResults "English" =
         some (stripTransient (recordOfResponse freshResponse)) ∧
       (handleIdentify staleFlagsState (.ok freshResponse)
          (fun _ => .ok freshResponse)).hasExistingData "English" =
         hasEnglishExisting freshResponse)) :=
  ⟨by decide, by decide,
   identify_rebuilds_per_run_state staleFlagsState
     { name := "photo.png", type := "image/png" } freshResponse
     (fun _ => .ok freshResponse) "Hindi" (by decide) (by decide)⟩

/-- An English response whose only persisted datum is the stored English base
name `existing_object_name_en`; the three per-language existing fields are
empty. -/
def dbNameOnlyResponse : ApiResponse :=
  { freshResponse with existing_object_name_en := "apple" }

/-- C4 counterexample: after an identify run whose English response carries
only `existing_object_name_en`, the three existing-* fields named by the
claim are all empty, yet `hasExistingData["English"]` is true — the English
check also consults the fourth field `existing_object_name_en`. -/
theorem englishExistingData_uses_fourth_field :
    dbNameOnlyResponse.existing_object_name = "" ∧
    dbNameOnlyResponse.existing_object_description = "" ∧
    dbNameOnlyResponse.existing_object_hint = "" ∧
    (handleIdentify hindiState (.ok dbNameOnlyResponse)
        (fun _ => .ok freshResponse)).hasExistingData "English" = true := by
  refine ⟨rfl, rfl, rfl, ?_⟩
  decide

/-- C4 (amended): after a settled identify run, a non-English tab's
existing-data flag is true iff one of the three existing-* fields of its
response is non-empty; the English flag is true iff one of those three fields
or the additional `existing_object_name_en` field of the English response is
non-empty. -/
theorem hasExistingData_characterisation (s : AppState) (f : ImageFile)
    (d dl : ApiResponse) (out : String → Except String ApiResponse)
    (l : String)
    (hf : s.file = some f) (hsel : s.selectedLanguages ≠ [])
    (hEng : "English" ∉ s.selectedLanguages)
    (hl : l ∈ s.selectedLanguages) (hout : out l = .ok dl) :
    ((handleIdentify s (.ok d) out).hasExistingData "English" = true ↔
      (d.existing_object_name_en ≠ "" ∨ d.existing_object_name ≠ "" ∨
       d.existing_object_description ≠ "" ∨ d.existing_object_hint ≠ "")) ∧
    ((handleIdentify s (.ok d) out).hasExistingData l = true ↔
      (dl.existing_object_name ≠ "" ∨ dl.existing_object_description ≠ "" ∨
       dl.existing_object_hint ≠ "")) := by
  rw [handleIdentify_ok_eq s f d out hf hsel]
  constructor
  · simp only [hEng, hasEnglishExisting]
    simp
    tauto
  · simp only [hl, hout, recordOfOutcome, recordOfResponse, hasExisting3]
    simp [hl]
    tauto

/-- C4 amended witness: the characterisation at `hindiState` with the
database-name-only English response and a fresh Hindi response. -/
theorem hasExistingData_characterisation_witness :
    hindiState.file = some { name := "photo.png", type := "image/png" } ∧
    hindiState.selectedLanguages ≠ [] ∧
    "English" ∉ hindiState.selectedLanguages ∧
    "Hindi" ∈ hindiState.selectedLanguages ∧
    (fun _ : String => Except.ok (ε := String) freshResponse) "Hindi" =
      .ok freshResponse ∧
    (((handleIdentify hindiState (.ok dbNameOnlyResponse)
        (fun _ => .ok freshResponse)).hasExistingData "English" = true ↔
      (dbNameOnlyResponse.existing_object_name_en ≠ "" ∨
       dbNameOnlyResponse.existing_object_name ≠ "" ∨
       dbNameOnlyResponse.existing_object_description ≠ "" ∨
       dbNameOnlyResponse.existing_object_hint ≠ "")) ∧
     ((handleIdentify hindiState (.ok dbNameOnlyResponse)
        (fun _ => .ok freshResponse)).hasExistingData "Hindi" = true ↔
      (freshResponse.existing_object_name ≠ "" ∨
       freshResponse.existing_object_description ≠ "" ∨
       freshResponse.existing_object_hint ≠ ""))) :=
  ⟨by decide, by decide, by decide, by decide, rfl,
   hasExistingData_characterisation hindiState
     { name := "photo.png", type := "image/png" } dbNameOnlyResponse
     freshResponse (fun _ => .ok freshResponse) "Hindi"
     (by decide) (by decide) (by decide) (by decide) rfl⟩

/-- C5: in the fan-out phase, a failed request for a selected language `L`
with a non-empty message produces for `L` a record with empty name,
description and hint and the message in its `error` slot; any other selected
language's record is exactly the one determined by its own response alone (no
`error` when it succeeded); and the run raises no global error. -/
theorem identify_isolated_failure (s : AppState) (f : ImageFile)
    (d dOther : ApiResponse) (out : String → Except String ApiResponse)
    (lFail lOther : String) (msg : String)
    (hf : s.file = some f)
    (hL : lFail ∈ s.selectedLanguages)
    (hfail : out lFail = .error msg) (hmsg : msg ≠ "")
    (hO : lOther ∈ s.selectedLanguages) (hne : lOther ≠ lFail)
    (hok : out lOther = .ok dOther) :
    (handleIdentify s (.ok d) out).languageResults lFail =
      some (failedRecord msg) ∧
    (failedRecord msg).object_name = "" ∧
    (failedRecord msg).object_description = "" ∧
    (failedRecord msg).object_hint = "" ∧
    (failedRecord msg).error = some msg ∧ msg ≠ "" ∧
    (handleIdentify s (.ok d) out).languageResults lOther =
      some (recordOfResponse dOther) ∧
    (recordOfResponse dOther).error = none ∧
    (handleIdentify s (.ok d) out).error = none := by
  rw [handleIdentify_ok_eq s f d out hf (List.ne_nil_of_mem hL)]
  refine ⟨?_, rfl, rfl, rfl, rfl, hmsg, ?_, rfl, rfl⟩
  · simp [hL, hfail, recordOfOutcome]
  · simp [hO, hok, recordOfOutcome]

/-- A state with Hindi and French selected, as before the example run of the
specification in which Hindi fails and French succeeds. -/
def twoLangState : AppState :=
  { baseState with activeTab := "English" }

/-- C5 witness: the isolated-failure behaviour at a concrete run where the
Hindi request fails with a non-empty message and the French request
succeeds. -/
theorem identify_isolated_failure_witness :
    twoLangState.file = some { name := "photo.png", type := "image/png" } ∧
    "Hindi" ∈ twoLangState.selectedLanguages ∧
    "French" ∈ twoLangState.selectedLanguages ∧
    (("French" : String) ≠ "Hindi") ∧
    (("Hindi API Error: boom" : String) ≠ "") ∧
    ((handleIdentify twoLangState (.ok freshResponse)
        (fun l => if l = "Hindi" then .error "Hindi API Error: boom"
                  else .ok freshResponse)).languageResults "Hindi" =
       some (failedRecord "Hindi API Error: boom") ∧
     (failedRecord "Hindi API Error: boom").object_name = "" ∧
     (failedRecord "Hindi API Error: boom").object_description = "" ∧
     (failedRecord "Hindi API Error: boom").object_hint = "" ∧
     (failedRecord "Hindi API Error: boom").error =
       some "Hindi API Error: boom" ∧
     ("Hindi API Error: boom" : String) ≠ "" ∧
     (handleIdentify twoLangState (.ok freshResponse)
        (fun l => if l = "Hindi" then .error "Hindi API Error: boom"
                  else .ok freshResponse)).languageResults "French" =
       some (recordOfResponse freshResponse) ∧
     (recordOfResponse freshResponse).error = none ∧
     (handleIdentify twoLangState (.ok freshResponse)
        (fun l => if l = "Hindi" then .error "Hindi API Error: boom"
                  else .ok freshResponse)).error = none) :=
  ⟨by decide, by decide, by decide, by decide, by decide,
   identify_isolated_failure twoLangState
     { name := "photo.png", type := "image/png" } freshResponse freshResponse
     (fun l => if l = "Hindi" then .error "Hindi API Error: boom"
               else .ok freshResponse)
     "Hindi" "French" "Hindi API Error: boom"
     (by decide) (by decide) rfl (by decide) (by decide) (by decide) rfl⟩
